import Mathlib

/-!
Verification of `polog_logger` (src/polog_logger/polog_setup.py), a logging
setup wrapper: a formatter `customLogFormat`, a schema-filter factory
`performanceLogFilter`, and the pipeline assembler `setup_logging`.

The repository code is embedded faithfully.  Its external collaborators
(Python's `json` module, pydantic v1's `validate_model`, the stdlib
`logging.getLevelName`, and polog's `file_writer`/`config.add_handlers`)
are modelled from their documented behaviour at the points the repository
code relies on them:
  - `json.loads` is modelled by a JSON parser over strings, restricted to
    integer numerals (fractional/exponent numbers, `NaN`/`Infinity` are
    outside the model); a non-string argument raises `TypeError`, a parse
    failure raises `ValueError` (as `json.JSONDecodeError`).
  - pydantic v1 `validate_model(model, input_data)` RETURNS its
    `ValidationError` in the third component of its result tuple instead
    of raising it; it raises (`AttributeError`) only when `input_data` has
    no `.get`, i.e. when the decoded JSON is not an object, or when the
    model itself is `None`.
  - `logging.getLevelName` maps known numeric levels to their names, known
    level names back to their numbers, and anything else to `"Level %s"`.
-/

/-- Python runtime values that can appear as attributes of a polog
`LogItem` record (message, process, level, ...). -/
inductive PyVal where
  | none
  | bool (b : Bool)
  | int (n : Int)
  | str (s : String)
deriving DecidableEq, Repr

/-- A polog `LogItem`: a dict-like record of attributes.  Modelled as an
association list; `dict(record)` keeps the last binding of a key. -/
abbrev LogItem := List (String × PyVal)

/-- `dict(record).get(key)`: the last binding of `key`, default `None`. -/
def LogItem.get (record : LogItem) (key : String) : PyVal :=
  match record.reverse.lookup key with
  | some v => v
  | Option.none => PyVal.none

/-- Python `str(v)`, as used by an f-string on each interpolated value. -/
def pyStr : PyVal → String
  | PyVal.none => "None"
  | PyVal.bool true => "True"
  | PyVal.bool false => "False"
  | PyVal.int n => toString n
  | PyVal.str s => s

/-- Python exception classes that the embedded code can raise. -/
inductive PyError where
  | valueError
  | typeError
  | attributeError
deriving DecidableEq, Repr

/-- JSON values, as decoded by `json.loads`: objects decode to Python
dicts, arrays to lists; numbers are restricted to integers in this model. -/
inductive Json where
  | null
  | bool (b : Bool)
  | num (n : Int)
  | str (s : String)
  | arr (elems : List Json)
  | obj (fields : List (String × Json))
deriving Repr

/-- Lookup in a decoded JSON object, with Python-dict semantics: a later
duplicate key overwrites an earlier one, so the last binding wins. -/
def Json.objGet (fields : List (String × Json)) (key : String) : Option Json :=
  fields.reverse.lookup key

/-- JSON whitespace. -/
def isJsonWs (c : Char) : Bool :=
  c = ' ' || c = '\t' || c = '\n' || c = '\r'

/-- Drop leading JSON whitespace. -/
def skipWs : List Char → List Char
  | [] => []
  | c :: cs => if isJsonWs c then skipWs cs else c :: cs

/-- Split off a maximal run of decimal digits. -/
def takeDigits : List Char → List Char × List Char
  | [] => ([], [])
  | c :: cs =>
    if c.isDigit then
      let (ds, rest) := takeDigits cs
      (c :: ds, rest)
    else
      ([], c :: cs)

/-- Value of a run of decimal digits, accumulator style. -/
def digitsToNat : List Char → Nat → Nat
  | [], acc => acc
  | c :: cs, acc => digitsToNat cs (acc * 10 + (c.toNat - 48))

/-- Hexadecimal digit value, for `\u` escapes. -/
def hexVal (c : Char) : Option Nat :=
  if c.isDigit then some (c.toNat - 48)
  else if 'a' ≤ c ∧ c ≤ 'f' then some (c.toNat - 87)
  else if 'A' ≤ c ∧ c ≤ 'F' then some (c.toNat - 55)
  else Option.none

/-- Parse a JSON number at the head of the input.  The model covers
integer numerals (optional minus, no leading zeros); a fractional or
exponent continuation fails the parse (outside the model). -/
def parseNumber (input : List Char) : Option (Json × List Char) :=
  let signed : Bool × List Char :=
    match input with
    | '-' :: cs => (true, cs)
    | cs => (false, cs)
  match takeDigits signed.2 with
  | ([], _) => Option.none
  | (ds, rest) =>
    if ds.length > 1 && ds.head? = some '0' then Option.none
    else
      match rest with
      | '.' :: _ => Option.none
      | 'e' :: _ => Option.none
      | 'E' :: _ => Option.none
      | _ =>
        let n : Int := Int.ofNat (digitsToNat ds 0)
        some (Json.num (if signed.1 then -n else n), rest)

/-- Parse the body of a JSON string after the opening quote, handling the
escape sequences `json.loads` accepts and rejecting raw control
characters (strict mode). -/
def parseStrAux (fuel : Nat) (acc : List Char) (input : List Char) :
    Option (String × List Char) :=
  match fuel, input with
  | 0, _ => Option.none
  | _, [] => Option.none
  | fuel + 1, c :: cs =>
    if c = '"' then some (String.mk acc.reverse, cs)
    else if c = '\\' then
      match cs with
      | [] => Option.none
      | e :: cs2 =>
        if e = '"' then parseStrAux fuel ('"' :: acc) cs2
        else if e = '\\' then parseStrAux fuel ('\\' :: acc) cs2
        else if e = '/' then parseStrAux fuel ('/' :: acc) cs2
        else if e = 'b' then parseStrAux fuel ('\x08' :: acc) cs2
        else if e = 'f' then parseStrAux fuel ('\x0c' :: acc) cs2
        else if e = 'n' then parseStrAux fuel ('\n' :: acc) cs2
        else if e = 'r' then parseStrAux fuel ('\r' :: acc) cs2
        else if e = 't' then parseStrAux fuel ('\t' :: acc) cs2
        else if e = 'u' then
          match cs2 with
          | h1 :: h2 :: h3 :: h4 :: cs3 =>
            match hexVal h1, hexVal h2, hexVal h3, hexVal h4 with
            | some a, some b, some c3, some d =>
              parseStrAux fuel (Char.ofNat (((a * 16 + b) * 16 + c3) * 16 + d) :: acc) cs3
            | _, _, _, _ => Option.none
          | _ => Option.none
        else Option.none
    else if c.toNat < 32 then Option.none
    else parseStrAux fuel (c :: acc) cs

mutual

/-- Parse one JSON value at the head of the input (after optional
whitespace), returning it with the unconsumed remainder. -/
def parseValue : Nat → List Char → Option (Json × List Char)
  | 0, _ => Option.none
  | fuel + 1, input =>
    match skipWs input with
    | [] => Option.none
    | 'n' :: 'u' :: 'l' :: 'l' :: rest => some (Json.null, rest)
    | 't' :: 'r' :: 'u' :: 'e' :: rest => some (Json.bool true, rest)
    | 'f' :: 'a' :: 'l' :: 's' :: 'e' :: rest => some (Json.bool false, rest)
    | '"' :: rest =>
      match parseStrAux (rest.length + 1) [] rest with
      | some (s, r) => some (Json.str s, r)
      | Option.none => Option.none
    | '[' :: rest =>
      match skipWs rest with
      | ']' :: r => some (Json.arr [], r)
      | r => parseItems fuel r []
    | '\x7b' :: rest =>
      match skipWs rest with
      | '\x7d' :: r => some (Json.obj [], r)
      | r => parseMembers fuel r []
    | other => parseNumber other

/-- Parse the comma-separated elements of a JSON array, after `[`. -/
def parseItems : Nat → List Char → List Json → Option (Json × List Char)
  | 0, _, _ => Option.none
  | fuel + 1, input, acc =>
    match parseValue fuel input with
    | Option.none => Option.none
    | some (v, rest) =>
      match skipWs rest with
      | ',' :: r => parseItems fuel r (v :: acc)
      | ']' :: r => some (Json.arr (v :: acc).reverse, r)
      | _ => Option.none

/-- Parse the comma-separated members of a JSON object, after the opening
brace. -/
def parseMembers : Nat → List Char → List (String × Json) →
    Option (Json × List Char)
  | 0, _, _ => Option.none
  | fuel + 1, input, acc =>
    match skipWs input with
    | '"' :: rest =>
      match parseStrAux (rest.length + 1) [] rest with
      | Option.none => Option.none
      | some (key, r1) =>
        match skipWs r1 with
        | ':' :: r2 =>
          match parseValue fuel r2 with
          | Option.none => Option.none
          | some (v, r3) =>
            match skipWs r3 with
            | ',' :: r4 => parseMembers fuel r4 ((key, v) :: acc)
            | '\x7d' :: r4 => some (Json.obj ((key, v) :: acc).reverse, r4)
            | _ => Option.none
        | _ => Option.none
    | _ => Option.none

end

/-- Modelled external collaborator: `json.loads` applied to a string,
succeeding exactly when the whole input is one JSON document (the parse
covers the integer-numeral fragment of JSON numbers). -/
def parseJson (s : String) : Option Json :=
  match parseValue (s.data.length + 1) s.data with
  | some (j, rest) => if skipWs rest = [] then some j else Option.none
  | Option.none => Option.none

/-- Modelled external collaborator: `json.loads(v)` on an arbitrary
Python value.  A non-string argument raises `TypeError`; a string that is
not valid JSON raises `json.JSONDecodeError`, a subclass of `ValueError`. -/
def pyJsonLoads (v : PyVal) : Except PyError Json :=
  match v with
  | PyVal.str s =>
    match parseJson s with
    | some j => Except.ok j
    | Option.none => Except.error PyError.valueError
  | _ => Except.error PyError.typeError

/-- A declared field type of a pydantic model (the fragment the repository
uses: `str` and `int` annotations). -/
inductive FieldType where
  | str
  | int
deriving DecidableEq, Repr

/-- One declared field of a pydantic model. -/
structure PydField where
  name : String
  type : FieldType
deriving DecidableEq, Repr

/-- A pydantic `BaseModel` subclass, seen as its declared fields. -/
abbrev PydSchema := List PydField

/-- Python `int(s)` succeeds on a string: optional surrounding spaces, an
optional sign, then a nonempty run of digits. -/
def pyIntOfString (s : String) : Bool :=
  let stripped := s.data.dropWhile (· = ' ') |>.reverse.dropWhile (· = ' ') |>.reverse
  let unsigned :=
    match stripped with
    | '-' :: cs => cs
    | '+' :: cs => cs
    | cs => cs
  unsigned ≠ [] && unsigned.all Char.isDigit

/-- Pydantic v1 lenient coercion: whether a decoded JSON value passes the
validator for a declared field type.  An `int` field accepts ints, bools
and int-convertible strings; a `str` field accepts strings, ints and
bools (`str()`-convertible scalars). -/
def fieldCoercible : FieldType → Json → Bool
  | FieldType.int, Json.num _ => true
  | FieldType.int, Json.bool _ => true
  | FieldType.int, Json.str s => pyIntOfString s
  | FieldType.int, _ => false
  | FieldType.str, Json.str _ => true
  | FieldType.str, Json.num _ => true
  | FieldType.str, Json.bool _ => true
  | FieldType.str, _ => false

/-- Modelled external collaborator: pydantic v1 `validate_model(model,
input_data)`.  When `input_data` is not a dict (`.get` is missing) it
raises `AttributeError`; otherwise it RETURNS the list of per-field
validation errors (missing required field, failed coercion) in its result
tuple — it never raises a `ValidationError`. -/
def validate_model (schema : PydSchema) (input : Json) :
    Except PyError (List String) :=
  match input with
  | Json.obj fields =>
    Except.ok (schema.foldr
      (fun f acc =>
        match Json.objGet fields f.name with
        | Option.none => ("field required: " ++ f.name) :: acc
        | some v =>
          if fieldCoercible f.type v then acc
          else ("type error: " ++ f.name) :: acc)
      [])
  | _ => Except.error PyError.attributeError

/-- Whether a decoded JSON value validates against a schema: all declared
fields present with coercible values (the error list of `validate_model`
is empty). -/
def validatesAgainst (schema : PydSchema) (j : Json) : Bool :=
  match validate_model schema j with
  | Except.ok errors => errors.isEmpty
  | Except.error _ => false

/-- The body of the `try` block of `inner_filter` in
`performanceLogFilter`:
`raw_log = json.loads(dict(record).get("message"))`, then
`validate_model(LogModel, raw_log)` (result discarded), then
`return True`.  A `LogModel` of `None` makes `validate_model` raise
`AttributeError` on attribute access. -/
def inner_filter_body (LogModel : Option PydSchema) (record : LogItem) :
    Except PyError Bool :=
  match pyJsonLoads (LogItem.get record "message") with
  | Except.error e => Except.error e
  | Except.ok raw_log =>
    match LogModel with
    | Option.none => Except.error PyError.attributeError
    | some schema =>
      match validate_model schema raw_log with
      | Except.error e => Except.error e
      | Except.ok _errors => Except.ok true

/-- `inner_filter` of `performanceLogFilter`: the `try` block with
`except (ValueError, ValidationError, Exception): return False`, which
catches every exception. -/
def inner_filter (LogModel : Option PydSchema) (record : LogItem) : Bool :=
  match inner_filter_body LogModel record with
  | Except.ok b => b
  | Except.error _ => false

/-- `performanceLogFilter(LogModel)`: the predicate factory; returns
`inner_filter` closed over the model. -/
def performanceLogFilter (LogModel : Option PydSchema) : LogItem → Bool :=
  inner_filter LogModel

/-- Modelled external collaborator: stdlib `logging.getLevelName(level)`.
A known numeric level maps to its name; a known name maps back to its
number (which the caller's f-string then stringifies); `False == 0` hits
the `NOTSET` entry; everything else yields `"Level %s" % level`. -/
def getLevelName (level : PyVal) : PyVal :=
  match level with
  | PyVal.int 0 => PyVal.str "NOTSET"
  | PyVal.int 10 => PyVal.str "DEBUG"
  | PyVal.int 20 => PyVal.str "INFO"
  | PyVal.int 30 => PyVal.str "WARNING"
  | PyVal.int 40 => PyVal.str "ERROR"
  | PyVal.int 50 => PyVal.str "CRITICAL"
  | PyVal.int n => PyVal.str ("Level " ++ toString n)
  | PyVal.str "CRITICAL" => PyVal.int 50
  | PyVal.str "FATAL" => PyVal.int 50
  | PyVal.str "ERROR" => PyVal.int 40
  | PyVal.str "WARN" => PyVal.int 30
  | PyVal.str "WARNING" => PyVal.int 30
  | PyVal.str "INFO" => PyVal.int 20
  | PyVal.str "DEBUG" => PyVal.int 10
  | PyVal.str "NOTSET" => PyVal.int 0
  | PyVal.bool false => PyVal.str "NOTSET"
  | v => PyVal.str ("Level " ++ pyStr v)

/-- `customLogFormat(data)`: reads `message`, `process` and `level` from
the record and renders the f-string
`"{process} - {level} - {values}\n"` (each segment through `str()`). -/
def customLogFormat (data : LogItem) : String :=
  let values := LogItem.get data "message"
  let process := LogItem.get data "process"
  let level := getLevelName (LogItem.get data "level")
  pyStr process ++ " - " ++ pyStr level ++ " - " ++ pyStr values ++ "\n"

/-- Destination of a polog handler. -/
inductive Dest where
  | console
  | file (path : String)

/-- A polog handler as produced by `file_writer`: destination, optional
filter, formatter. -/
structure Handler where
  dest : Dest
  filter : Option (LogItem → Bool)
  formatter : LogItem → String

/-- Whether a handler writes to a file (rather than the console). -/
def Handler.isFile (h : Handler) : Bool :=
  match h.dest with
  | Dest.file _ => true
  | Dest.console => false

/-- Modelled external collaborator: polog `file_writer`.  With no target
it writes to standard output; with a path it appends to that file.  The
`filter` and `formatter` keyword arguments are stored on the handler. -/
def file_writer (target : Option String) (filter : Option (LogItem → Bool))
    (formatter : LogItem → String) : Handler :=
  { dest :=
      match target with
      | Option.none => Dest.console
      | some p => Dest.file p
    filter := filter
    formatter := formatter }

/-- The process-wide polog configuration that `setup_logging` builds: the
registered handlers (in registration order) and the `pool_size` setting. -/
structure PologConfig where
  handlers : List Handler
  pool_size : Int

/-- The filter attached to the first file handler, if any. -/
def PologConfig.fileFilter (cfg : PologConfig) : Option (LogItem → Bool) :=
  match cfg.handlers.find? Handler.isFile with
  | some h => h.filter
  | Option.none => Option.none

/-- `setup_logging(logfile, pool_size, custom_log_format,
custom_log_model, custom_log_filter)`:
1. `logging.basicConfig(level=logging.INFO)` (source-side threshold),
2. register the console handler `file_writer(formatter=...)`,
3. `if not custom_log_filter:` (a passed function is always truthy)
   replace it by `performanceLogFilter(LogModel=custom_log_model)`,
4. `if logfile:` (string truthiness: present and nonempty) register the
   file handler with the effective filter,
5. `config.set(pool_size=pool_size)`.
It returns nothing in the source; the embedding returns the resulting
process-wide configuration. -/
def setup_logging (logfile : Option String) (pool_size : Int)
    (custom_log_format : LogItem → String)
    (custom_log_model : Option PydSchema)
    (custom_log_filter : Option (LogItem → Bool)) : PologConfig :=
  let consoleHandler := file_writer Option.none Option.none custom_log_format
  let effective_filter : LogItem → Bool :=
    match custom_log_filter with
    | some f => f
    | Option.none => performanceLogFilter custom_log_model
  let handlers :=
    match logfile with
    | some path =>
      if path = "" then [consoleHandler]
      else
        [consoleHandler,
         file_writer (some path) (some effective_filter) custom_log_format]
    | Option.none => [consoleHandler]
  { handlers := handlers, pool_size := pool_size }

/-- The demo schema of the source's docstring and `__main__` block:
`class TestMetric(BaseModel): field1: str; field2: int`. -/
def TestMetric : PydSchema :=
  [{ name := "field1", type := FieldType.str },
   { name := "field2", type := FieldType.int }]

/-- A trivial always-accepting custom filter, used as a concrete witness
value. -/
def alwaysTrueFilter : LogItem → Bool := fun _ => true

/-- Helper: with no model (`performanceLogFilter(LogModel=None)`), the
filter rejects every record: a non-JSON or absent message raises in
`json.loads`, and a decoded one raises `AttributeError` in
`validate_model(None, ...)`; every exception is caught as `False`. -/
theorem noModelFilterRejects (record : LogItem) :
    inner_filter Option.none record = false := by
  unfold inner_filter inner_filter_body
  cases pyJsonLoads (LogItem.get record "message") <;> rfl

/-- C1: the claim says a message that parses as JSON but misses a
required schema field or mistypes one is rejected by the filter; the code
disagrees.  With the schema `field1: str, field2: int`, the message
`'{"field1":"x","field2":"not-an-int"}'` is ACCEPTED (the filter returns
`true`): pydantic v1 `validate_model` returns its validation errors
instead of raising them, and `inner_filter` discards that return value. -/
theorem C1_mistyped_message_is_accepted :
    inner_filter (some TestMetric)
      [("message", PyVal.str "\x7b\"field1\":\"x\",\"field2\":\"not-an-int\"\x7d")]
      = true := by
  rfl

/-- C2: for every record whose message text parses as JSON and validates
against the supplied schema (all declared fields present with coercible
runtime types), the filter returned by `performanceLogFilter` yields
`true`. -/
theorem C2_valid_message_accepted (schema : PydSchema) (record : LogItem)
    (s : String) (j : Json)
    (hmsg : LogItem.get record "message" = PyVal.str s)
    (hparse : parseJson s = some j)
    (hvalid : validatesAgainst schema j = true) :
    inner_filter (some schema) record = true := by
  have hload : pyJsonLoads (LogItem.get record "message") = Except.ok j := by
    rw [hmsg]
    simp only [pyJsonLoads, hparse]
  have hvm : ∃ errs, validate_model schema j = Except.ok errs := by
    unfold validatesAgainst at hvalid
    cases h : validate_model schema j with
    | ok errs => exact ⟨errs, rfl⟩
    | error e => rw [h] at hvalid; simp at hvalid
  obtain ⟨errs, hvm⟩ := hvm
  unfold inner_filter inner_filter_body
  rw [hload]
  simp only [hvm]

/-- Witness for C2 at the docstring's scenario A: schema
`field1: str, field2: int`, message `'{"field1":"x","field2":1}'`. -/
theorem C2_valid_message_accepted_witness :
    inner_filter (some TestMetric)
      [("message", PyVal.str "\x7b\"field1\":\"x\",\"field2\":1\x7d")] = true :=
  C2_valid_message_accepted TestMetric
    [("message", PyVal.str "\x7b\"field1\":\"x\",\"field2\":1\x7d")]
    "\x7b\"field1\":\"x\",\"field2\":1\x7d"
    (Json.obj [("field1", Json.str "x"), ("field2", Json.num 1)])
    rfl rfl rfl

/-- C3: the filter never propagates an exception: whenever the body of
the `try` block raises any exception (non-string message, JSON decode
error, validation-time attribute error, ...), `inner_filter` returns the
boolean `false` instead. -/
theorem C3_exceptions_become_false (LogModel : Option PydSchema)
    (record : LogItem) (e : PyError)
    (h : inner_filter_body LogModel record = Except.error e) :
    inner_filter LogModel record = false := by
  unfold inner_filter
  rw [h]

/-- Witness for C3: a record with no message attribute makes `json.loads`
raise `TypeError` on `None`, and the filter returns `false`. -/
theorem C3_exceptions_become_false_witness :
    inner_filter (some TestMetric) [] = false :=
  C3_exceptions_become_false (some TestMetric) [] PyError.typeError rfl

/-- C4: with neither a custom filter nor a model supplied, `setup_logging`
attaches `performanceLogFilter(None)` to the file sink, and that filter
rejects every record; the misconfiguration raises no error at setup time
(`setup_logging` is total and still produces a configuration). -/
theorem C4_no_model_no_filter_rejects_all (logfile : String) (ps : Int)
    (fmt : LogItem → String) (record : LogItem) (h : logfile ≠ "") :
    PologConfig.fileFilter
        (setup_logging (some logfile) ps fmt Option.none Option.none)
      = some (performanceLogFilter Option.none)
    ∧ performanceLogFilter Option.none record = false := by
  refine ⟨?_, noModelFilterRejects record⟩
  unfold setup_logging PologConfig.fileFilter file_writer Handler.isFile
  simp [h]

/-- Witness for C4: a file sink at `app.log`, and a record whose message
is the valid JSON object text consisting of an opening and a closing
brace, still rejected. -/
theorem C4_no_model_no_filter_rejects_all_witness :
    ("app.log" ≠ "")
    ∧ (PologConfig.fileFilter
          (setup_logging (some "app.log") 0 customLogFormat Option.none
            Option.none)
        = some (performanceLogFilter Option.none)
      ∧ performanceLogFilter Option.none
          [("message", PyVal.str "\x7b\x7d")] = false) :=
  ⟨by decide,
   C4_no_model_no_filter_rejects_all "app.log" 0 customLogFormat
     [("message", PyVal.str "\x7b\x7d")] (by decide)⟩

/-- C5: for every record, `customLogFormat` produces exactly
`"<process> - <levelName> - <message>\n"`, with the level segment derived
from the record's severity code through `logging.getLevelName` (numeric
20 renders as `INFO`); it is total, and a record with no fields at all
renders every segment as the placeholder `None` instead of failing. -/
theorem C5_formatter_shape (record : LogItem) :
    customLogFormat record =
      pyStr (LogItem.get record "process") ++ " - "
        ++ pyStr (getLevelName (LogItem.get record "level")) ++ " - "
        ++ pyStr (LogItem.get record "message") ++ "\n"
    ∧ getLevelName (PyVal.int 20) = PyVal.str "INFO"
    ∧ customLogFormat [] = "None - Level None - None\n" :=
  ⟨rfl, rfl, rfl⟩

/-- C6: a supplied custom filter is attached unchanged to the file sink,
and the schema model is ignored entirely: the configuration is the same
whatever the model, and the file sink's filter is the supplied one. -/
theorem C6_custom_filter_overrides_model (logfile : Option String)
    (ps : Int) (fmt : LogItem → String) (model : Option PydSchema)
    (f : LogItem → Bool) :
    setup_logging logfile ps fmt model (some f)
      = setup_logging logfile ps fmt Option.none (some f)
    ∧ (∀ path : String, path ≠ "" →
        PologConfig.fileFilter (setup_logging (some path) ps fmt model (some f))
          = some f) := by
  refine ⟨rfl, fun path hpath => ?_⟩
  unfold setup_logging PologConfig.fileFilter file_writer Handler.isFile
  simp [hpath]

/-- Witness for C6: with a schema supplied alongside an explicit
always-true filter, the file sink at `perf.log` carries the explicit
filter. -/
theorem C6_custom_filter_overrides_model_witness :
    PologConfig.fileFilter
        (setup_logging (some "perf.log") 0 customLogFormat (some TestMetric)
          (some alwaysTrueFilter))
      = some alwaysTrueFilter :=
  (C6_custom_filter_overrides_model (some "perf.log") 0 customLogFormat
      (some TestMetric) alwaysTrueFilter).2 "perf.log" (by decide)

/-- C7: with `logfile=None` no file handler is registered: the handler
list is exactly the console handler, no handler targets a file, and only
the pool-size setting is additionally applied. -/
theorem C7_no_logfile_no_file_sink (ps : Int) (fmt : LogItem → String)
    (model : Option PydSchema) (fil : Option (LogItem → Bool)) :
    (setup_logging Option.none ps fmt model fil).handlers
      = [file_writer Option.none Option.none fmt]
    ∧ (setup_logging Option.none ps fmt model fil).handlers.filter
        Handler.isFile = []
    ∧ (setup_logging Option.none ps fmt model fil).pool_size = ps :=
  ⟨rfl, rfl, rfl⟩

/-- C8: the console handler is registered first and unconditionally, with
no filter; and every registered handler (console and, when present, file)
carries the same formatter function, so a record reaching both sinks is
formatted identically. -/
theorem C8_console_unconditional_shared_formatter (logfile : Option String)
    (ps : Int) (fmt : LogItem → String) (model : Option PydSchema)
    (fil : Option (LogItem → Bool)) :
    (setup_logging logfile ps fmt model fil).handlers.head?
      = some (file_writer Option.none Option.none fmt)
    ∧ (setup_logging logfile ps fmt model fil).handlers.map Handler.formatter
      = List.replicate (setup_logging logfile ps fmt model fil).handlers.length
          fmt := by
  unfold setup_logging
  cases logfile with
  | none => exact ⟨rfl, rfl⟩
  | some path =>
    by_cases hpath : path = "" <;>
      simp [hpath, file_writer, List.replicate]

/-- C9: the formatter is deterministic: it depends only on the `message`,
`process` and `level` attributes of the record, so two records agreeing
on those (in particular, the same record twice) format to the identical
string. -/
theorem C9_formatter_deterministic (r1 r2 : LogItem)
    (hm : LogItem.get r1 "message" = LogItem.get r2 "message")
    (hp : LogItem.get r1 "process" = LogItem.get r2 "process")
    (hl : LogItem.get r1 "level" = LogItem.get r2 "level") :
    customLogFormat r1 = customLogFormat r2 := by
  unfold customLogFormat
  rw [hm, hp, hl]

/-- Witness for C9: a record formats the same as an extended copy of
itself carrying an extra unrelated attribute. -/
theorem C9_formatter_deterministic_witness :
    customLogFormat [("message", PyVal.str "hi")]
      = customLogFormat [("extra", PyVal.int 7), ("message", PyVal.str "hi")] :=
  C9_formatter_deterministic [("message", PyVal.str "hi")]
    [("extra", PyVal.int 7), ("message", PyVal.str "hi")]
    (by decide) (by decide) (by decide)

/-- C10: an empty-string `logfile` is falsy, so `if logfile:` skips the
file handler: the resulting configuration equals the one for an absent
`logfile`, and no handler targets a file. -/
theorem C10_empty_logfile_no_file_sink (ps : Int) (fmt : LogItem → String)
    (model : Option PydSchema) (fil : Option (LogItem → Bool)) :
    setup_logging (some "") ps fmt model fil
      = setup_logging Option.none ps fmt model fil
    ∧ (setup_logging (some "") ps fmt model fil).handlers.filter
        Handler.isFile = [] := by
  constructor <;> simp [setup_logging, file_writer, Handler.isFile]
